import Mathlib

/-!
Verification of `cmds/screenshot/screenshot.cpp` (the `screenshot` command):
a shallow embedding of its data model and operations, followed by theorems
settling the specification's claims about it.

Modelling conventions:
* Machine integers are `Nat` with an explicit `% 2^32` wherever the C
  computation can overflow on the original 32-bit target (where
  `unsigned int` and `size_t` are both 32 bits wide).  `DisplayInfo.w`,
  `DisplayInfo.h` and `orientation` stand for `uint32_t` values, so storing
  them into the `unsigned int` header fields cannot truncate and carries no
  `%`.
* Byte sinks (`write` to a file descriptor) are modelled as the list of
  bytes transmitted, in order; `status_t` is `Int`.
* The local variable `struct fbinfo fbinfo;` in `write_data` is
  default-initialized in C++, i.e. its contents are indeterminate until
  assigned.  The embedding therefore threads an explicit `init : Fbinfo`
  standing for the pre-existing stack contents; fields the code assigns
  overwrite `init`, fields it never assigns keep it.
-/

namespace Screenshot

/-- `2^32`: the modulus of `unsigned int` and of `size_t` on the 32-bit
target the command was built for. -/
def U32 : Nat := 4294967296

/-- `#define DDMS_RAWIMAGE_VERSION 1` (screenshot.cpp line 38). -/
def DDMS_RAWIMAGE_VERSION : Nat := 1

/-- Modelled from the spec: the pixel-format tag for RGBA-8888 in the
closed enumeration of formats.  The numeric value comes from the
repository's pixel-format header, which is not under `src/`; no claim
depends on the value, only on the two supported tags being distinct. -/
def PIXEL_FORMAT_RGBA_8888 : Nat := 1

/-- Modelled from the spec: the pixel-format tag for RGB-565 (see
`PIXEL_FORMAT_RGBA_8888`). -/
def PIXEL_FORMAT_RGB_565 : Nat := 4

/-- Modelled from the spec: `ISurfaceComposer::eOrientationSwapMask`, the
swap bit indicating a 90 or 270 degree rotation.  The header declaring it
is not under `src/`; the claims speak only of "the swap bit", i.e. of the
test `orientation &&& eOrientationSwapMask` being nonzero. -/
def eOrientationSwapMask : Nat := 1

/-- `status_t` success value `NO_ERROR` (= 0). -/
def NO_ERROR : Int := 0

/-- Modelled from the spec: `status_t` error code `BAD_VALUE` from the
platform error header (not under `src/`); the claims need only that it is
a non-success status. -/
def BAD_VALUE : Int := -22

/-- The slice of `DisplayInfo` the program reads: width and height in
pixels (`uint32_t`), the raw orientation value, the pixel-format tag and
`pixelFormatInfo.bytesPerPixel`. -/
structure DisplayInfo where
  w : Nat
  h : Nat
  orientation : Nat
  format : Nat
  bytesPerPixel : Nat
  deriving Repr, DecidableEq

/-- `struct fbinfo` (screenshot.cpp lines 39-53): thirteen `unsigned int`
fields in this declaration order, `__attribute__((packed))`. -/
structure Fbinfo where
  version : Nat
  bpp : Nat
  size : Nat
  width : Nat
  height : Nat
  red_offset : Nat
  red_length : Nat
  blue_offset : Nat
  blue_length : Nat
  green_offset : Nat
  green_length : Nat
  alpha_offset : Nat
  alpha_length : Nat
  deriving Repr, DecidableEq

/-- A 32-bit `unsigned int`, as the four little-endian bytes the packed
struct occupies in memory on the (little-endian) target. -/
def le32 (n : Nat) : List Nat :=
  [n % 256, n / 256 % 256, n / 65536 % 256, n / 16777216 % 256]

/-- The 52 bytes `writex(fd, &fbinfo, sizeof(fbinfo))` transmits: the
packed struct's fields laid out in declaration order (version, bpp, size,
width, height, then the red, BLUE, GREEN, alpha channel pairs), each as 4
little-endian bytes, with no padding. -/
def fbinfoBytes (f : Fbinfo) : List Nat :=
  le32 f.version ++ le32 f.bpp ++ le32 f.size ++ le32 f.width ++ le32 f.height ++
  le32 f.red_offset ++ le32 f.red_length ++
  le32 f.blue_offset ++ le32 f.blue_length ++
  le32 f.green_offset ++ le32 f.green_length ++
  le32 f.alpha_offset ++ le32 f.alpha_length

/-- Read back the `i`-th 4-byte little-endian word of a byte stream
(missing bytes read as 0). -/
def decodeWord (bs : List Nat) (i : Nat) : Nat :=
  bs.getD (4 * i) 0 + 256 * bs.getD (4 * i + 1) 0 +
  65536 * bs.getD (4 * i + 2) 0 + 16777216 * bs.getD (4 * i + 3) 0

/-- The header-filling prefix of `write_data` (screenshot.cpp lines
83-106): fills version/bpp/size/width/height, then dispatches on the pixel
format to fill the red/green/blue channel pairs; an unrecognized format is
the early `return BAD_VALUE` (`none` here).  `init` is the indeterminate
initial content of the stack-allocated `struct fbinfo fbinfo;` — note the
code never assigns `alpha_offset`/`alpha_length`, so those keep `init`'s
values. -/
def mkHeader (info : DisplayInfo) (init : Fbinfo) : Option Fbinfo :=
  let f0 : Fbinfo := { init with
    version := DDMS_RAWIMAGE_VERSION
    bpp := info.bytesPerPixel * 8 % U32
    size := info.w * info.h * info.bytesPerPixel % U32
    width := info.w
    height := info.h }
  if info.format = PIXEL_FORMAT_RGBA_8888 then
    some { f0 with
      red_offset := 0,  red_length := 8
      green_offset := 8, green_length := 8
      blue_offset := 16, blue_length := 8 }
  else if info.format = PIXEL_FORMAT_RGB_565 then
    some { f0 with
      red_offset := 11, red_length := 5
      green_offset := 5, green_length := 6
      blue_offset := 0,  blue_length := 5 }
  else
    none

/-- The row loop of `write_data` (screenshot.cpp lines 117-126): the data
cursor starts at `linesize * h` and each iteration steps it back by
`linesize` and transmits `linesize` bytes from it.  `writeRowsLoop data
linesize h` is the byte stream the `h` iterations transmit: the slice at
offset `linesize * (h-1)` first, down to the slice at offset 0. -/
def writeRowsLoop (data : List Nat) (linesize : Nat) : Nat → List Nat
  | 0 => []
  | Nat.succ k => (data.drop (linesize * k)).take linesize ++ writeRowsLoop data linesize k

/-- `write_data` (screenshot.cpp lines 77-129) with an always-succeeding
sink (the failure behaviour of the underlying `writex` is modelled
separately by `writex` below): returns the `status_t` result and the bytes
transmitted to the sink.  The `len` parameter is kept because the C
function takes it — the body never reads it.  `init` is the indeterminate
initial content of the local `struct fbinfo`. -/
def write_data (info : DisplayInfo) (data : List Nat) (len : Nat) (init : Fbinfo) :
    Int × List Nat :=
  match mkHeader info init with
  | none => (BAD_VALUE, [])
  | some f =>
    let linesize := info.bytesPerPixel * info.w % U32
    (NO_ERROR, fbinfoBytes f ++ writeRowsLoop data linesize info.h)

/-- The orientation correction in `main` (screenshot.cpp lines 147-154):
if the queried orientation value has the swap bit set, width and height
are swapped; otherwise the geometry is left unchanged. -/
def correctOrientation (info : DisplayInfo) : DisplayInfo :=
  if info.orientation &&& eOrientationSwapMask ≠ 0 then
    { info with w := info.h, h := info.w }
  else
    info

/-- One response of the underlying `write(2)` call as `writex` observes
it: either it wrote `n` bytes (`write` returned `n ≥ 0`; POSIX guarantees
`n` is at most the requested length, and `List.take` caps it likewise), or
it failed with `errno = EINTR` (`fail true`) or any other error
(`fail false`). -/
inductive WriteResp where
  | wrote (n : Nat)
  | fail (eintr : Bool)
  deriving Repr, DecidableEq

/-- `writex` (screenshot.cpp lines 58-75), driven by an oracle listing the
response of each successive `write` call: loops while bytes remain,
advancing past the bytes a successful `write` took, retrying in place on
`EINTR`, and returning -1 on a zero-byte write or any other error.
Returns the C return value (0 success, -1 error) paired with the bytes
actually transmitted to the sink.  An exhausted oracle is reported as an
error (the theorems always supply adequate oracles). -/
def writex : List WriteResp → List Nat → Int × List Nat
  | _, [] => (0, [])
  | [], _ :: _ => (-1, [])
  | WriteResp.wrote n :: rest, p :: ps =>
    if 0 < n then
      let r := writex rest ((p :: ps).drop n)
      (r.1, (p :: ps).take n ++ r.2)
    else
      (-1, [])
  | WriteResp.fail e :: rest, p :: ps =>
    if e then writex rest (p :: ps) else (-1, [])

/-- The cleanup calls `main` can issue on the shared buffer: `munmap` of
the mapping and `close` of the ashmem handle. -/
inductive Ev where
  | munmapEv
  | closeEv
  deriving Repr, DecidableEq

/-- The outcomes of the external calls `main` makes, as inputs to the
embedding: the `getDisplayInfo` status, the fd returned by
`ashmem_create_region` (negative = failure) and the `errno` then in
effect, whether `mmap` succeeded and the `errno` if not, and the
`grabScreen` status. -/
structure Ext where
  getDisplayInfoStatus : Int
  ashmem_fd : Int
  ashmem_errno : Nat
  mmap_ok : Bool
  mmap_errno : Nat
  grabStatus : Int
  deriving Repr, DecidableEq

/-- `main` (screenshot.cpp lines 131-191): query display info, correct
orientation, allocate and map the shared buffer, grab the screen, encode
to stdout, then — only on this success path — `munmap` and `close`.
Returns the process exit code and the list of cleanup calls issued.
`data` is the captured buffer contents and `init` the indeterminate
initial `struct fbinfo` inside `write_data`. -/
def mainRun (ext : Ext) (info0 : DisplayInfo) (data : List Nat) (init : Fbinfo) :
    Int × List Ev :=
  if ext.getDisplayInfoStatus ≠ 0 then (-1, [])
  else
    let info := correctOrientation info0
    let fb_size := info.w * info.h * info.bytesPerPixel % U32
    if ext.ashmem_fd < 0 then (-(ext.ashmem_errno : Int), [])
    else if ¬ ext.mmap_ok then (-(ext.mmap_errno : Int), [])
    else if ext.grabStatus ≠ 0 then (-1, [])
    else if (write_data info data fb_size init).1 ≠ 0 then (-1, [])
    else (0, [Ev.munmapEv, Ev.closeEv])

/-- Modelled from the spec: bytes-per-pixel as the display query derives
it from the pixel format (RGBA-8888 occupies 4 bytes, RGB-565 occupies 2);
the platform pixel-format tables computing it are not under `src/`. -/
def bytesPerPixelOf (format : Nat) : Nat :=
  if format = PIXEL_FORMAT_RGBA_8888 then 4
  else if format = PIXEL_FORMAT_RGB_565 then 2
  else 0

/-- The serialization order the specification asserts: channel pairs in
the order red, GREEN, BLUE, alpha.  Stated from the spec's words, to be
compared against `fbinfoBytes`, which follows the struct's actual
declaration order. -/
def claimOrderBytes (f : Fbinfo) : List Nat :=
  le32 f.version ++ le32 f.bpp ++ le32 f.size ++ le32 f.width ++ le32 f.height ++
  le32 f.red_offset ++ le32 f.red_length ++
  le32 f.green_offset ++ le32 f.green_length ++
  le32 f.blue_offset ++ le32 f.blue_length ++
  le32 f.alpha_offset ++ le32 f.alpha_length

/-- An all-zero `Fbinfo`, used as one concrete value for the indeterminate
initial stack contents. -/
def fbZero : Fbinfo :=
  ⟨0, 0, 0, 0, 0, 0, 0, 0, 0, 0, 0, 0, 0⟩

/-- A concrete `Fbinfo` with nonzero alpha fields, standing for one
possible content of the uninitialized stack memory `write_data`'s local
`struct fbinfo` starts with. -/
def fbGarbage : Fbinfo :=
  ⟨0, 0, 0, 0, 0, 0, 0, 0, 0, 0, 0, 7, 9⟩

/-- A concrete RGBA-8888 geometry: 4 x 2, 4 bytes per pixel, orientation
0. -/
def infoRGBA : DisplayInfo :=
  ⟨4, 2, 0, PIXEL_FORMAT_RGBA_8888, 4⟩

/-- A concrete RGB-565 geometry: 1 x 2, 2 bytes per pixel, orientation
0. -/
def info565 : DisplayInfo :=
  ⟨1, 2, 0, PIXEL_FORMAT_RGB_565, 2⟩

/-- A concrete geometry whose pixel-format tag is neither of the two
supported formats. -/
def infoBad : DisplayInfo :=
  ⟨4, 2, 0, 0, 4⟩

/-- The header `mkHeader infoRGBA fbGarbage` produces, written out. -/
def hdrG : Fbinfo :=
  ⟨1, 32, 32, 4, 2, 0, 8, 16, 8, 8, 8, 7, 9⟩

/-- The header `mkHeader infoRGBA fbZero` produces, written out. -/
def hdrRGBA0 : Fbinfo :=
  ⟨1, 32, 32, 4, 2, 0, 8, 16, 8, 8, 8, 0, 0⟩

/-- The header `mkHeader info565 fbZero` produces, written out. -/
def hdr565z : Fbinfo :=
  ⟨1, 16, 4, 1, 2, 11, 5, 0, 5, 5, 6, 0, 0⟩

/-- A concrete RGBA-8888 geometry whose orientation value has the swap
bit set. -/
def infoSwap : DisplayInfo :=
  ⟨4, 2, 1, PIXEL_FORMAT_RGBA_8888, 4⟩

/-- The header produced for `infoSwap` after orientation correction:
width and height are the queried ones swapped. -/
def hdrSwap : Fbinfo :=
  ⟨1, 32, 32, 2, 4, 0, 8, 16, 8, 8, 8, 0, 0⟩

/-- External-call outcomes where allocation and mapping succeed and
`grabScreen` then fails. -/
def extGrabFail : Ext :=
  ⟨0, 3, 0, true, 0, -1⟩

/-- External-call outcomes where every external call succeeds. -/
def extOk : Ext :=
  ⟨0, 3, 0, true, 0, 0⟩

/-! ## Helper lemmas -/

theorem writeRowsLoop_length (L : Nat) (data : List Nat) :
    ∀ h : Nat, L * h ≤ data.length → (writeRowsLoop data L h).length = L * h := by
  intro h
  induction h with
  | zero => simp [writeRowsLoop]
  | succ k ih =>
    intro hle
    have hk : L * k ≤ data.length := by
      have : L * k ≤ L * (k + 1) := Nat.mul_le_mul_left _ (Nat.le_succ _)
      omega
    simp [writeRowsLoop, ih hk]
    have : L * (k + 1) = L * k + L := by ring
    omega

theorem writeRowsLoop_append (L : Nat) (ys data : List Nat) :
    ∀ h : Nat, L * h ≤ data.length →
      writeRowsLoop (data ++ ys) L h = writeRowsLoop data L h := by
  intro h
  induction h with
  | zero => simp [writeRowsLoop]
  | succ k ih =>
    intro hle
    have hmul : L * (k + 1) = L * k + L := by ring
    have hk : L * k ≤ data.length := by omega
    rw [writeRowsLoop, writeRowsLoop, ih hk]
    congr 1
    rw [List.drop_append_of_le_length (by omega)]
    rw [List.take_append_of_le_length (by simp; omega)]

theorem flatten_length_rows (L : Nat) :
    ∀ rows : List (List Nat), (∀ r ∈ rows, r.length = L) →
      rows.flatten.length = L * rows.length := by
  intro rows
  induction rows with
  | nil => simp
  | cons r rs ih =>
    intro hr
    have h1 : r.length = L := hr r (List.mem_cons_self _ _)
    have h2 : rs.flatten.length = L * rs.length :=
      ih (fun x hx => hr x (List.mem_cons_of_mem _ hx))
    simp [h1, h2]
    ring

theorem writeRowsLoop_flatten (L : Nat) (rows : List (List Nat))
    (hr : ∀ r ∈ rows, r.length = L) :
    writeRowsLoop rows.flatten L rows.length = rows.reverse.flatten := by
  induction rows using List.reverseRecOn with
  | nil => simp [writeRowsLoop]
  | append_singleton rs r ih =>
    have hrs : ∀ x ∈ rs, x.length = L := fun x hx => hr x (by simp [hx])
    have hrlen : r.length = L := hr r (by simp)
    have hjlen : rs.flatten.length = L * rs.length := flatten_length_rows L rs hrs
    have hlen : (rs ++ [r]).length = rs.length + 1 := by simp
    rw [hlen, List.flatten_append]
    have hfr : [r].flatten = r := by simp
    rw [hfr, writeRowsLoop]
    rw [writeRowsLoop_append L r rs.flatten rs.length (le_of_eq hjlen.symm)]
    rw [ih hrs]
    rw [List.drop_left' hjlen, ← hrlen, List.take_length, List.reverse_append]
    simp

theorem fbinfoBytes_len (f : Fbinfo) : (fbinfoBytes f).length = 52 := by
  simp [fbinfoBytes, le32]

theorem drop_header (f : Fbinfo) (rest : List Nat) :
    (fbinfoBytes f ++ rest).drop 52 = rest :=
  List.drop_left' (fbinfoBytes_len f)

theorem mkHeader_common (info : DisplayInfo) (init f : Fbinfo)
    (hf : mkHeader info init = some f) :
    f.version = 1 ∧ f.bpp = info.bytesPerPixel * 8 % U32 ∧
    f.size = info.w * info.h * info.bytesPerPixel % U32 ∧
    f.width = info.w ∧ f.height = info.h ∧
    f.alpha_offset = init.alpha_offset ∧ f.alpha_length = init.alpha_length := by
  by_cases h1 : info.format = PIXEL_FORMAT_RGBA_8888
  · simp [mkHeader, h1, PIXEL_FORMAT_RGBA_8888, PIXEL_FORMAT_RGB_565] at hf
    subst hf
    simp [DDMS_RAWIMAGE_VERSION]
  · by_cases h2 : info.format = PIXEL_FORMAT_RGB_565
    · simp [mkHeader, h1, h2, PIXEL_FORMAT_RGBA_8888, PIXEL_FORMAT_RGB_565] at hf
      subst hf
      simp [DDMS_RAWIMAGE_VERSION]
    · simp [mkHeader, h1, h2] at hf

theorem write_data_of_mkHeader (info : DisplayInfo) (data : List Nat) (len : Nat)
    (init f : Fbinfo) (hf : mkHeader info init = some f) :
    write_data info data len init =
      (NO_ERROR, fbinfoBytes f ++
        writeRowsLoop data (info.bytesPerPixel * info.w % U32) info.h) := by
  simp [write_data, hf]

theorem writex_eintr_transparent (rest : List WriteResp) (data : List Nat) :
    writex (WriteResp.fail true :: rest) data = writex rest data := by
  cases data with
  | nil => simp [writex]
  | cons d ds => simp [writex]

theorem writex_success_exact (resps : List WriteResp) :
    ∀ (data tr : List Nat), writex resps data = (0, tr) → tr = data := by
  induction resps with
  | nil =>
    intro data tr h
    cases data with
    | nil => simp [writex] at h; exact h
    | cons d ds => simp [writex] at h
  | cons r rest ih =>
    intro data tr h
    cases data with
    | nil => simp [writex] at h; exact h
    | cons d ds =>
      cases r with
      | wrote n =>
        by_cases hn : 0 < n
        · simp [writex, hn] at h
          obtain ⟨h1, h2⟩ := h
          have hx : writex rest ((d :: ds).drop n) =
              (0, (writex rest ((d :: ds).drop n)).2) := by
            rw [← h1]
          have := ih ((d :: ds).drop n) _ hx
          rw [← h2, this, List.take_append_drop]
        · simp [writex, hn] at h
      | fail e =>
        cases e with
        | false => simp [writex] at h
        | true =>
          rw [writex_eintr_transparent] at h
          exact ih _ _ h

/-! ## Claims -/

/-- Claim C1, counterexample: with allocation and mapping successful and
`grabScreen` failing, `main` exits with code -1 having issued NO `munmap`
and NO `close` — not "exactly once" as claimed; cleanup is conditional on
full success, not unconditional. -/
theorem C1_counterexample :
    0 ≤ extGrabFail.ashmem_fd ∧ extGrabFail.mmap_ok = true ∧
    extGrabFail.grabStatus ≠ 0 ∧
    mainRun extGrabFail infoRGBA [] fbZero = (-1, []) := by
  decide

/-- Claim C1, amended: after successful allocation and mapping, the
mapping is unmapped and the handle closed (once each, unmap then close)
only on the fully successful path; the early returns on capture failure
and on encode failure exit with -1 without issuing either cleanup call. -/
theorem C1_cleanup_only_on_success (ext : Ext) (info : DisplayInfo)
    (data : List Nat) (init : Fbinfo)
    (hq : ext.getDisplayInfoStatus = 0) (ha : 0 ≤ ext.ashmem_fd)
    (hm : ext.mmap_ok = true) :
    (ext.grabStatus ≠ 0 → mainRun ext info data init = (-1, [])) ∧
    (ext.grabStatus = 0 →
      (write_data (correctOrientation info) data
        ((correctOrientation info).w * (correctOrientation info).h *
          (correctOrientation info).bytesPerPixel % U32) init).1 ≠ 0 →
      mainRun ext info data init = (-1, [])) ∧
    (ext.grabStatus = 0 →
      (write_data (correctOrientation info) data
        ((correctOrientation info).w * (correctOrientation info).h *
          (correctOrientation info).bytesPerPixel % U32) init).1 = 0 →
      mainRun ext info data init = (0, [Ev.munmapEv, Ev.closeEv])) := by
  have hna : ¬ ext.ashmem_fd < 0 := not_lt.mpr ha
  refine ⟨?_, ?_, ?_⟩
  · intro hg
    simp [mainRun, hq, hna, hm, hg]
  · intro hg hw
    simp [mainRun, hq, hna, hm, hg, hw]
  · intro hg hw
    simp [mainRun, hq, hna, hm, hg, hw]

theorem C1_witness :
    (extOk.grabStatus ≠ 0 → mainRun extOk info565 [1, 2, 3, 4] fbZero = (-1, [])) ∧
    (extOk.grabStatus = 0 →
      (write_data (correctOrientation info565) [1, 2, 3, 4]
        ((correctOrientation info565).w * (correctOrientation info565).h *
          (correctOrientation info565).bytesPerPixel % U32) fbZero).1 ≠ 0 →
      mainRun extOk info565 [1, 2, 3, 4] fbZero = (-1, [])) ∧
    (extOk.grabStatus = 0 →
      (write_data (correctOrientation info565) [1, 2, 3, 4]
        ((correctOrientation info565).w * (correctOrientation info565).h *
          (correctOrientation info565).bytesPerPixel % U32) fbZero).1 = 0 →
      mainRun extOk info565 [1, 2, 3, 4] fbZero = (0, [Ev.munmapEv, Ev.closeEv])) :=
  C1_cleanup_only_on_success extOk info565 [1, 2, 3, 4] fbZero
    (by decide) (by decide) (by decide)

/-- Claim C2, counterexample: `write_data` never assigns the alpha
offset/length fields of its stack-allocated header, so the wire header
carries the indeterminate initial stack contents; with initial contents
`fbGarbage` (alpha pair 7, 9) the emitted RGBA-8888 header's alpha words
(words 11 and 12 of the stream) are nonzero, refuting "alpha offset equal
to 0 and alpha length equal to 0". -/
theorem C2_counterexample :
    decodeWord (write_data infoRGBA [] 0 fbGarbage).2 11 ≠ 0 ∧
    decodeWord (write_data infoRGBA [] 0 fbGarbage).2 12 ≠ 0 := by
  decide

/-- Claim C2, amended: for both supported formats the encoder leaves the
header's alpha offset and alpha length fields unassigned — they equal the
pre-existing (indeterminate) contents of the local struct, and are 0 only
when that memory happens to be 0. -/
theorem C2_alpha_unassigned (info : DisplayInfo) (init f : Fbinfo)
    (hf : mkHeader info init = some f) :
    f.alpha_offset = init.alpha_offset ∧ f.alpha_length = init.alpha_length :=
  ⟨(mkHeader_common info init f hf).2.2.2.2.2.1,
   (mkHeader_common info init f hf).2.2.2.2.2.2⟩

theorem C2_witness :
    hdrG.alpha_offset = fbGarbage.alpha_offset ∧
    hdrG.alpha_length = fbGarbage.alpha_length :=
  C2_alpha_unassigned infoRGBA fbGarbage hdrG (by decide)

/-- Claim C3, counterexample: the struct declares the channel pairs in
the order red, BLUE, GREEN, alpha — not red, green, blue, alpha as
claimed; serializing the header the claim's way differs from the struct's
actual packed layout on a concrete RGBA-8888 header (whose green and blue
offsets differ). -/
theorem C3_counterexample :
    (mkHeader infoRGBA fbZero).map fbinfoBytes ≠
      (mkHeader infoRGBA fbZero).map claimOrderBytes := by
  decide

/-- Claim C3, amended: the 52-byte wire header consists, in order and
with no padding, of the five 4-byte unsigned integers version,
bitsPerPixel, totalSizeBytes, width, height, followed by one
(offset, length) pair of 4-byte unsigned integers for each channel in the
order red, BLUE, GREEN, alpha: decoding the 13 little-endian 32-bit words
of the serialized header recovers exactly those fields in that order. -/
theorem C3_layout (f : Fbinfo) :
    (fbinfoBytes f).length = 52 ∧
    decodeWord (fbinfoBytes f) 0 = f.version % U32 ∧
    decodeWord (fbinfoBytes f) 1 = f.bpp % U32 ∧
    decodeWord (fbinfoBytes f) 2 = f.size % U32 ∧
    decodeWord (fbinfoBytes f) 3 = f.width % U32 ∧
    decodeWord (fbinfoBytes f) 4 = f.height % U32 ∧
    decodeWord (fbinfoBytes f) 5 = f.red_offset % U32 ∧
    decodeWord (fbinfoBytes f) 6 = f.red_length % U32 ∧
    decodeWord (fbinfoBytes f) 7 = f.blue_offset % U32 ∧
    decodeWord (fbinfoBytes f) 8 = f.blue_length % U32 ∧
    decodeWord (fbinfoBytes f) 9 = f.green_offset % U32 ∧
    decodeWord (fbinfoBytes f) 10 = f.green_length % U32 ∧
    decodeWord (fbinfoBytes f) 11 = f.alpha_offset % U32 ∧
    decodeWord (fbinfoBytes f) 12 = f.alpha_length % U32 := by
  refine ⟨?_, ?_, ?_, ?_, ?_, ?_, ?_, ?_, ?_, ?_, ?_, ?_, ?_, ?_⟩ <;>
    simp [decodeWord, fbinfoBytes, le32, U32] <;> omega

/-- Claim C4: for a supported format and a buffer that is `height` rows
of `lineSize = bytesPerPixel * width` bytes each, `write_data` succeeds
and emits the header followed by exactly the input rows in reversed
order — no row altered, no byte dropped or duplicated; for zero rows only
the header is emitted. -/
theorem C4_row_reversal (info : DisplayInfo) (init f : Fbinfo)
    (rows : List (List Nat)) (len : Nat)
    (hf : mkHeader info init = some f)
    (hsz : info.bytesPerPixel * info.w < U32)
    (hrows : ∀ r ∈ rows, r.length = info.bytesPerPixel * info.w)
    (hh : rows.length = info.h) :
    write_data info rows.flatten len init =
      (NO_ERROR, fbinfoBytes f ++ rows.reverse.flatten) := by
  rw [write_data_of_mkHeader info rows.flatten len init f hf]
  rw [Nat.mod_eq_of_lt hsz, ← hh]
  rw [writeRowsLoop_flatten (info.bytesPerPixel * info.w) rows hrows]

theorem C4_witness :
    write_data info565 ([[1, 2], [3, 4]] : List (List Nat)).flatten 4 fbZero =
      (NO_ERROR, fbinfoBytes hdr565z ++
        ([[1, 2], [3, 4]] : List (List Nat)).reverse.flatten) :=
  C4_row_reversal info565 fbZero hdr565z [[1, 2], [3, 4]] 4
    (by decide) (by decide) (by decide) (by decide)

/-- Claim C5: an RGBA-8888 geometry yields bitsPerPixel 32 with channel
fields red (0,8), green (8,8), blue (16,8); an RGB-565 geometry yields
bitsPerPixel 16 with red (11,5), green (5,6), blue (0,5).  (The
bits-per-pixel value comes from the geometry's bytes-per-pixel, which the
display query derives from the format — hypothesis `hbpp`.) -/
theorem C5_channel_fields (info : DisplayInfo) (init f : Fbinfo)
    (hbpp : info.bytesPerPixel = bytesPerPixelOf info.format)
    (hf : mkHeader info init = some f) :
    (info.format = PIXEL_FORMAT_RGBA_8888 →
      f.bpp = 32 ∧ f.red_offset = 0 ∧ f.red_length = 8 ∧
      f.green_offset = 8 ∧ f.green_length = 8 ∧
      f.blue_offset = 16 ∧ f.blue_length = 8) ∧
    (info.format = PIXEL_FORMAT_RGB_565 →
      f.bpp = 16 ∧ f.red_offset = 11 ∧ f.red_length = 5 ∧
      f.green_offset = 5 ∧ f.green_length = 6 ∧
      f.blue_offset = 0 ∧ f.blue_length = 5) := by
  constructor
  · intro h1
    simp [mkHeader, h1, PIXEL_FORMAT_RGBA_8888, PIXEL_FORMAT_RGB_565] at hf
    subst hf
    simp [hbpp, h1, bytesPerPixelOf, PIXEL_FORMAT_RGBA_8888,
      PIXEL_FORMAT_RGB_565, U32]
  · intro h2
    have h1 : ¬ info.format = PIXEL_FORMAT_RGBA_8888 := by
      rw [h2]; decide
    simp [mkHeader, h1, h2, PIXEL_FORMAT_RGBA_8888, PIXEL_FORMAT_RGB_565] at hf
    subst hf
    simp [hbpp, h2, bytesPerPixelOf, PIXEL_FORMAT_RGBA_8888,
      PIXEL_FORMAT_RGB_565, U32]

theorem C5_witness :
    (infoRGBA.format = PIXEL_FORMAT_RGBA_8888 →
      hdrRGBA0.bpp = 32 ∧ hdrRGBA0.red_offset = 0 ∧ hdrRGBA0.red_length = 8 ∧
      hdrRGBA0.green_offset = 8 ∧ hdrRGBA0.green_length = 8 ∧
      hdrRGBA0.blue_offset = 16 ∧ hdrRGBA0.blue_length = 8) ∧
    (infoRGBA.format = PIXEL_FORMAT_RGB_565 →
      hdrRGBA0.bpp = 16 ∧ hdrRGBA0.red_offset = 11 ∧ hdrRGBA0.red_length = 5 ∧
      hdrRGBA0.green_offset = 5 ∧ hdrRGBA0.green_length = 6 ∧
      hdrRGBA0.blue_offset = 0 ∧ hdrRGBA0.blue_length = 5) :=
  C5_channel_fields infoRGBA fbZero hdrRGBA0 (by decide) (by decide)

/-- Claim C6: a geometry whose pixel format is neither RGBA-8888 nor
RGB-565 makes `write_data` fail with `BAD_VALUE` (the unsupported-format
error) with zero bytes written to the sink. -/
theorem C6_unsupported_rejected (info : DisplayInfo) (data : List Nat)
    (len : Nat) (init : Fbinfo)
    (h1 : info.format ≠ PIXEL_FORMAT_RGBA_8888)
    (h2 : info.format ≠ PIXEL_FORMAT_RGB_565) :
    write_data info data len init = (BAD_VALUE, []) := by
  simp [write_data, mkHeader, h1, h2]

theorem C6_witness : write_data infoBad [1, 2] 2 fbZero = (BAD_VALUE, []) :=
  C6_unsupported_rejected infoBad [1, 2] 2 fbZero (by decide) (by decide)

/-- Claim C7: when the queried orientation value has the swap bit set,
the width and height placed in the output header are the queried height
and width swapped; when it is unset they are the queried values
unchanged. -/
theorem C7_orientation_swap (info : DisplayInfo) (init f : Fbinfo)
    (hf : mkHeader (correctOrientation info) init = some f) :
    (info.orientation &&& eOrientationSwapMask ≠ 0 →
      f.width = info.h ∧ f.height = info.w) ∧
    (info.orientation &&& eOrientationSwapMask = 0 →
      f.width = info.w ∧ f.height = info.h) := by
  have hc := mkHeader_common _ init f hf
  constructor
  · intro hbit
    simp [correctOrientation, hbit] at hc
    exact ⟨hc.2.2.2.1, hc.2.2.2.2.1⟩
  · intro hbit
    simp [correctOrientation, hbit] at hc
    exact ⟨hc.2.2.2.1, hc.2.2.2.2.1⟩

theorem C7_witness :
    (infoSwap.orientation &&& eOrientationSwapMask ≠ 0 →
      hdrSwap.width = infoSwap.h ∧ hdrSwap.height = infoSwap.w) ∧
    (infoSwap.orientation &&& eOrientationSwapMask = 0 →
      hdrSwap.width = infoSwap.w ∧ hdrSwap.height = infoSwap.h) :=
  C7_orientation_swap infoSwap fbZero hdrSwap (by decide)

/-- Claim C8: `writex` retries a write attempt that fails with EINTR from
the same remaining offset, so a sink failing one attempt with EINTR and
then behaving like a never-failing sink yields byte-identical output and
result; a write returning 0, or failing for any reason other than EINTR,
is a terminal error (-1, nothing further written); and a successful
`writex` transmits exactly the requested bytes. -/
theorem C8_reliable_writer (rest resps : List WriteResp) (data tr : List Nat)
    (d : Nat) (ds : List Nat)
    (hw : writex resps data = (0, tr)) :
    writex (WriteResp.fail true :: rest) data = writex rest data ∧
    writex (WriteResp.fail false :: rest) (d :: ds) = (-1, []) ∧
    writex (WriteResp.wrote 0 :: rest) (d :: ds) = (-1, []) ∧
    tr = data := by
  refine ⟨writex_eintr_transparent rest data, ?_, ?_,
    writex_success_exact resps data tr hw⟩
  · simp [writex]
  · simp [writex]

theorem C8_witness :
    writex [WriteResp.fail true, WriteResp.wrote 2] [5, 6] =
        writex [WriteResp.fail true, WriteResp.wrote 2].tail [5, 6] ∧
    writex [WriteResp.fail false, WriteResp.fail true, WriteResp.wrote 2] (7 :: [8]) = (-1, []) ∧
    writex [WriteResp.wrote 0, WriteResp.fail true, WriteResp.wrote 2] (7 :: [8]) = (-1, []) ∧
    [5, 6] = [5, 6] :=
  C8_reliable_writer [WriteResp.fail true, WriteResp.wrote 2].tail
    [WriteResp.wrote 2] [5, 6] [5, 6] 7 [8] (by decide)

/-- Claim C9: the `len` argument of `write_data` has no effect — two
calls agreeing on geometry, buffer contents and initial struct contents
but differing in `len` produce identical results and identical bytes;
and (for a supported format, with the buffer of the geometry's size) the
number of pixel bytes emitted after the header is always
`height * (bytesPerPixel * width)`, independent of `len`. -/
theorem C9_len_has_no_effect (info : DisplayInfo) (data : List Nat)
    (init f : Fbinfo) (len1 len2 : Nat)
    (hf : mkHeader info init = some f)
    (hsz : info.bytesPerPixel * info.w < U32)
    (hd : data.length = info.w * info.h * info.bytesPerPixel) :
    write_data info data len1 init = write_data info data len2 init ∧
    ((write_data info data len1 init).2.drop 52).length =
      info.h * (info.bytesPerPixel * info.w) := by
  refine ⟨rfl, ?_⟩
  rw [write_data_of_mkHeader info data len1 init f hf]
  show ((fbinfoBytes f ++ _).drop 52).length = _
  rw [drop_header, Nat.mod_eq_of_lt hsz]
  rw [writeRowsLoop_length (info.bytesPerPixel * info.w) data info.h
    (by rw [hd]; exact le_of_eq (by ring))]
  ring

theorem C9_witness :
    write_data info565 [1, 2, 3, 4] 0 fbZero = write_data info565 [1, 2, 3, 4] 99 fbZero ∧
    ((write_data info565 [1, 2, 3, 4] 0 fbZero).2.drop 52).length =
      info565.h * (info565.bytesPerPixel * info565.w) :=
  C9_len_has_no_effect info565 [1, 2, 3, 4] fbZero hdr565z 0 99
    (by decide) (by decide) (by decide)

/-- Claim C10: on a successful encode (buffer of the geometry's size,
no 32-bit overflow), the number of pixel bytes emitted after the 52-byte
header equals the header's `size` field, and both equal
`width * height * bytesPerPixel`. -/
theorem C10_size_field_consistent (info : DisplayInfo) (data : List Nat)
    (len : Nat) (init f : Fbinfo)
    (hf : mkHeader info init = some f)
    (hov : info.w * info.h * info.bytesPerPixel < U32)
    (hd : data.length = info.w * info.h * info.bytesPerPixel) :
    (write_data info data len init).1 = NO_ERROR ∧
    ((write_data info data len init).2.drop 52).length = f.size ∧
    f.size = info.w * info.h * info.bytesPerPixel := by
  have hsize : f.size = info.w * info.h * info.bytesPerPixel := by
    rw [(mkHeader_common info init f hf).2.2.1, Nat.mod_eq_of_lt hov]
  refine ⟨?_, ?_, hsize⟩
  · rw [write_data_of_mkHeader info data len init f hf]
  · rw [write_data_of_mkHeader info data len init f hf, hsize]
    show ((fbinfoBytes f ++ _).drop 52).length = _
    rw [drop_header]
    rcases Nat.eq_zero_or_pos info.h with hz | hpos
    · simp [hz, writeRowsLoop]
    · have hlt : info.bytesPerPixel * info.w < U32 := by
        refine lt_of_le_of_lt ?_ hov
        calc info.bytesPerPixel * info.w
            ≤ info.bytesPerPixel * info.w * info.h :=
              Nat.le_mul_of_pos_right _ hpos
          _ = info.w * info.h * info.bytesPerPixel := by ring
      rw [Nat.mod_eq_of_lt hlt]
      rw [writeRowsLoop_length (info.bytesPerPixel * info.w) data info.h
        (by rw [hd]; exact le_of_eq (by ring))]
      ring

theorem C10_witness :
    (write_data info565 [1, 2, 3, 4] 7 fbZero).1 = NO_ERROR ∧
    ((write_data info565 [1, 2, 3, 4] 7 fbZero).2.drop 52).length = hdr565z.size ∧
    hdr565z.size = info565.w * info565.h * info565.bytesPerPixel :=
  C10_size_field_consistent info565 [1, 2, 3, 4] 7 fbZero hdr565z
    (by decide) (by decide) (by decide)
